import Mathlib

/-!
# azure-go-sdk-poc: cross-subscription virtual-network peering

A shallow embedding of `pkg/main/main.go` and `pkg/cfg/config.go`.

* Go strings are Lean `String`s.
* `fmt.Sprintf` / `fmt.Printf` are embedded by `Sprintf`, an interpreter for the
  verbs the program uses (`%s`, `%v`, `%%`), with Go's diagnostics for a missing
  operand, a dangling `%`, a wrong verb and surplus operands.
* The Azure SDK and viper are libraries outside the repository: their entry
  points are fields of the parameter records `SDK` and `Viper`.
* A run is the list of observable events it performs, how it ended, and the
  state of the remote control plane it leaves behind.
-/

namespace AzurePoc

/-! ## `fmt.Sprintf` -/

/-- Rendering of the operands left over once the format is exhausted:
`string=a, string=b`. -/
def extraOperands : List String → List Char
  | [] => []
  | [a] => "string=".data ++ a.data
  | a :: b :: rest => "string=".data ++ a.data ++ ", ".data ++ extraOperands (b :: rest)

/-- Tail of `doPrintf` once the format is exhausted: surplus operands are
reported as `%!(EXTRA ...)`. -/
def finishPrintf : List String → List Char
  | [] => []
  | a :: args => "%!(EXTRA ".data ++ extraOperands (a :: args) ++ [')']

/-- The formatting loop of Go's `fmt` on operands that are strings. The flag
says whether the previous character was an unconsumed `%`. -/
def doPrintf : Bool → List Char → List String → List Char
  | false, [], args => finishPrintf args
  | true, [], args => "%!(NOVERB)".data ++ finishPrintf args
  | false, c :: rest, args =>
    if c = '%' then doPrintf true rest args else c :: doPrintf false rest args
  | true, v :: rest, args =>
    if v = '%' then '%' :: doPrintf false rest args
    else
      match args with
      | [] => "%!".data ++ [v] ++ "(MISSING)".data ++ doPrintf false rest []
      | a :: args' =>
        if v = 's' ∨ v = 'v' then a.data ++ doPrintf false rest args'
        else "%!".data ++ [v] ++ "(string=".data ++ a.data ++ [')'] ++ doPrintf false rest args'

/-- Embedding of `fmt.Sprintf(format, args...)` for string operands. -/
def Sprintf (format : String) (args : List String) : String :=
  ⟨doPrintf false format.data args⟩

/-! ## Constants of `main.go` -/

/-- The constant `rtIDFormat`. -/
def rtIDFormat : String :=
  "/subscriptions/%s/resourceGroups/%s/providers/Microsoft.Network/routeTables/%s/routes/%s"

/-- The constant `vnetIDFormat`. -/
def vnetIDFormat : String :=
  "/subscriptions/%s/resourceGroups/%s/providers/Microsoft.Network/virtualNetworks/%s"

/-- The constant `defaultAddressPrefix`. -/
def defaultAddressPrefix : String := "0.0.0.0/0"

/-- The expression `fmt.Sprintf(vnetIDFormat, remoteSubscription, remoteRgName, remoteVnetName)`
of `createVnetPeeringCrossSub`. -/
def vnetID (subscriptionID resourceGroup name : String) : String :=
  Sprintf vnetIDFormat [subscriptionID, resourceGroup, name]

/-- The expression `fmt.Sprintf(rtIDFormat, subID, rgName, rtbName, rtName)` of `createRoute`. -/
def routeID (subID rgName rtbName rtName : String) : String :=
  Sprintf rtIDFormat [subID, rgName, rtbName, rtName]

/-! ## `pkg/cfg/config.go` -/

/-- The struct `cfg.Config`. -/
structure Config where
  TenantID : String
  ClientID : String
  ClientSecret : String
  SubscriptionID : String
  RemoteSubscriptionID : String
  HubRGName : String
  HubVnetName : String
  SpokeRGName : String
  SpokeVnetName : String
  SpokeRouteTableName : String
  deriving DecidableEq, Repr

/-- The zero value of `cfg.Config`, the initial value of the named result `config`. -/
def Config.zero : Config := ⟨"", "", "", "", "", "", "", "", "", ""⟩

/-- The entry points of the viper library that `LoadConfig` calls. Viper keeps
its settings in package-level state; `V` is that state together with whatever
it reads (files, environment). An error is `some message`, `nil` is `none`. -/
structure Viper (V : Type) where
  addConfigPath : V → String → V
  setConfigName : V → String → V
  setConfigType : V → String → V
  automaticEnv : V → V
  readInConfig : V → Option String × V
  unmarshal : V → Config → (Option String × Config) × V

/-- Embedding of `cfg.LoadConfig`: the named results `(config, err)` and the
viper state left behind. -/
def LoadConfig (viper : Viper V) (v : V) (path : String) : (Config × Option String) × V :=
  let v1 := viper.addConfigPath v path
  let v2 := viper.setConfigName v1 "app"
  let v3 := viper.setConfigType v2 "env"
  let v4 := viper.automaticEnv v3
  match viper.readInConfig v4 with
  | (some err, v5) => ((Config.zero, some err), v5)
  | (none, v5) =>
    match viper.unmarshal v5 Config.zero with
    | ((err, config), v6) => ((config, err), v6)

/-! ## The Azure SDK -/

/-- Value of `azidentity.NewClientSecretCredential`. -/
structure ClientSecretCredential where
  handle : String
  deriving DecidableEq, Repr

/-- The type `armnetwork.RouteTablesClient`. -/
structure RouteTablesClient where
  handle : String
  deriving DecidableEq, Repr

/-- The type `armnetwork.RoutesClient`. -/
structure RoutesClient where
  handle : String
  deriving DecidableEq, Repr

/-- The type `armnetwork.VirtualNetworksClient`. -/
structure VirtualNetworksClient where
  handle : String
  deriving DecidableEq, Repr

/-- The type `armnetwork.VirtualNetworkPeeringsClient`. -/
structure VirtualNetworkPeeringsClient where
  handle : String
  deriving DecidableEq, Repr

/-- A `*runtime.Poller[T]`. -/
structure Poller (α : Type) where
  handle : String
  deriving DecidableEq, Repr

/-- The type `armnetwork.SubResource`; a pointer field is an `Option`. -/
structure SubResource where
  ID : Option String
  deriving DecidableEq, Repr

/-- The fields of `armnetwork.VirtualNetworkPeeringPropertiesFormat` the program
sets or reads. -/
structure VirtualNetworkPeeringPropertiesFormat where
  AllowForwardedTraffic : Option Bool
  AllowGatewayTransit : Option Bool
  AllowVirtualNetworkAccess : Option Bool
  RemoteVirtualNetwork : Option SubResource
  UseRemoteGateways : Option Bool
  PeeringState : Option String
  PeeringSyncLevel : Option String
  ProvisioningState : Option String
  deriving DecidableEq, Repr

/-- The type `armnetwork.VirtualNetworkPeering`, also the payload of the
response of `PollUntilDone`. -/
structure VirtualNetworkPeering where
  ID : Option String
  Name : Option String
  Properties : Option VirtualNetworkPeeringPropertiesFormat
  deriving DecidableEq, Repr

/-- The fields of `armnetwork.RoutePropertiesFormat` the program sets. -/
structure RoutePropertiesFormat where
  NextHopType : Option String
  AddressPrefix : Option String
  NextHopIPAddress : Option String
  deriving DecidableEq, Repr

/-- The type `armnetwork.Route`. -/
structure Route where
  ID : Option String
  Name : Option String
  Properties : Option RoutePropertiesFormat
  deriving DecidableEq, Repr

/-- The type `armnetwork.RouteTable`; `Tags` is a `map[string]*string`. -/
structure RouteTable where
  Tags : List (String × Option String)
  deriving DecidableEq, Repr

/-- The constant `armnetwork.SyncRemoteAddressSpaceTrue`. -/
def SyncRemoteAddressSpaceTrue : String := "true"

/-- The constant `armnetwork.RouteNextHopTypeVirtualAppliance`. -/
def RouteNextHopTypeVirtualAppliance : String := "VirtualAppliance"

/-- The SDK entry points the program calls. Constructors are local; the
create-or-update and polling calls talk to the remote control plane, whose
state is `W`. A Go result `(x, err)` with `err != nil` is `.error err.Error()`. -/
structure SDK (W : Type) where
  NewClientSecretCredential : String → String → String → Except String ClientSecretCredential
  NewRouteTablesClient : String → ClientSecretCredential → Except String RouteTablesClient
  NewRoutesClient : String → ClientSecretCredential → Except String RoutesClient
  NewVirtualNetworksClient : String → ClientSecretCredential → Except String VirtualNetworksClient
  NewVirtualNetworkPeeringsClient :
    String → ClientSecretCredential → Except String VirtualNetworkPeeringsClient
  peeringsBeginCreateOrUpdate : W → VirtualNetworkPeeringsClient → String → String → String →
    VirtualNetworkPeering → Option String → Except String (Poller VirtualNetworkPeering) × W
  peeringsPollUntilDone : W → Poller VirtualNetworkPeering → Except String VirtualNetworkPeering × W
  routesBeginCreateOrUpdate : W → RoutesClient → String → String → String → Route →
    Except String (Poller Route) × W
  routesPollUntilDone : W → Poller Route → Except String Route × W
  routeTablesBeginCreateOrUpdate : W → RouteTablesClient → String → String → RouteTable →
    Except String (Poller RouteTable) × W
  routeTablesPollUntilDone : W → Poller RouteTable → Except String RouteTable × W

/-! ## Runs -/

/-- What a run does that can be observed from outside, in order. -/
inductive Event where
  | newClientSecretCredential (tenantID clientID clientSecret : String)
  | newRouteTablesClient (subscriptionID : String) (cred : ClientSecretCredential)
  | newRoutesClient (subscriptionID : String) (cred : ClientSecretCredential)
  | newVirtualNetworksClient (subscriptionID : String) (cred : ClientSecretCredential)
  | newVirtualNetworkPeeringsClient (subscriptionID : String) (cred : ClientSecretCredential)
  | printf (format : String) (args : List String)
  | printlnRoute (res : Route)
  | logFatal (message : String)
  | peeringsBeginCreateOrUpdate (client : VirtualNetworkPeeringsClient)
      (resourceGroupName virtualNetworkName virtualNetworkPeeringName : String)
      (parameters : VirtualNetworkPeering) (syncRemoteAddressSpace : Option String)
  | peeringsPollUntilDone (poller : Poller VirtualNetworkPeering)
  | routesBeginCreateOrUpdate (client : RoutesClient)
      (resourceGroupName routeTableName routeName : String) (parameters : Route)
  | routesPollUntilDone (poller : Poller Route)
  | routeTablesBeginCreateOrUpdate (client : RouteTablesClient)
      (resourceGroupName routeTableName : String) (parameters : RouteTable)
  | routeTablesPollUntilDone (poller : Poller RouteTable)
  deriving DecidableEq, Repr

/-- How a function call ends: it returns, the process exits (`log.Fatal` calls
`os.Exit(1)`), or the Go runtime panics. -/
inductive Outcome where
  | returned
  | exit (code : Nat)
  | panic (message : String)
  deriving DecidableEq, Repr

/-- The panic of dereferencing a nil pointer. -/
def nilDereference : String := "runtime error: invalid memory address or nil pointer dereference"

/-- The panic of indexing a slice out of range. -/
def indexOutOfRange : String := "runtime error: index out of range"

/-- A run: its events, how it ended, and the remote state afterwards. -/
structure Run (W : Type) where
  trace : List Event
  outcome : Outcome
  world : W

/-! ## `pkg/main/main.go` -/

/-- The struct `AuthConf`. -/
structure AuthConf where
  tenantID : String
  clientID : String
  clientSecret : String
  deriving DecidableEq, Repr

/-- The struct `Client`. -/
structure Client where
  routeTablesClient : RouteTablesClient
  routesClient : RoutesClient
  vnetClient : VirtualNetworksClient
  vnetPeeringsClient : VirtualNetworkPeeringsClient
  deriving DecidableEq, Repr

/-- Embedding of `createClientForSubscription`: the events and the `*Client`
returned (`none` is `nil`). -/
def createClientForSubscription (sdk : SDK W) (authConf : AuthConf) (subscriptionID : String) :
    List Event × Option Client :=
  let e0 := Event.newClientSecretCredential authConf.tenantID authConf.clientID authConf.clientSecret
  match sdk.NewClientSecretCredential authConf.tenantID authConf.clientID authConf.clientSecret with
  | .error err => ([e0, .printf "Error in creating client %v" [err]], none)
  | .ok azureCred =>
    let e1 := Event.newRouteTablesClient subscriptionID azureCred
    match sdk.NewRouteTablesClient subscriptionID azureCred with
    | .error err => ([e0, e1, .printf "Error in creating route tables client %v" [err]], none)
    | .ok routeTablesClient =>
      let e2 := Event.newRoutesClient subscriptionID azureCred
      match sdk.NewRoutesClient subscriptionID azureCred with
      | .error err => ([e0, e1, e2, .printf "Error in creating routes client %v" [err]], none)
      | .ok routesClient =>
        let e3 := Event.newVirtualNetworksClient subscriptionID azureCred
        match sdk.NewVirtualNetworksClient subscriptionID azureCred with
        | .error err =>
          ([e0, e1, e2, e3, .printf "Error in creating virtual network client %v" [err]], none)
        | .ok vnetClient =>
          let e4 := Event.newVirtualNetworkPeeringsClient subscriptionID azureCred
          match sdk.NewVirtualNetworkPeeringsClient subscriptionID azureCred with
          | .error err =>
            ([e0, e1, e2, e3, e4,
              .printf "Error in creating virtual networks peering client %v" [err]], none)
          | .ok vnetPeeringsClient =>
            ([e0, e1, e2, e3, e4],
              some ⟨routeTablesClient, routesClient, vnetClient, vnetPeeringsClient⟩)

/-- Embedding of `makeClients`: the events and the slice returned. -/
def makeClients (sdk : SDK W) (cfg : Config) : List Event × List (Option Client) :=
  let authConf : AuthConf := ⟨cfg.TenantID, cfg.ClientID, cfg.ClientSecret⟩
  let client1 := createClientForSubscription sdk authConf cfg.SubscriptionID
  let client2 := createClientForSubscription sdk authConf cfg.RemoteSubscriptionID
  (client1.1 ++ client2.1, [client1.2, client2.2])

/-- The `armnetwork.VirtualNetworkPeering` literal that `createVnetPeeringCrossSub`
passes to `BeginCreateOrUpdate`. -/
def peeringParameters (remoteSubscription remoteRgName remoteVnetName : String) :
    VirtualNetworkPeering :=
  { ID := none
    Name := none
    Properties := some
      { AllowForwardedTraffic := some true
        AllowGatewayTransit := some false
        AllowVirtualNetworkAccess := some true
        RemoteVirtualNetwork :=
          some { ID := some (vnetID remoteSubscription remoteRgName remoteVnetName) }
        UseRemoteGateways := some false
        PeeringState := none
        PeeringSyncLevel := none
        ProvisioningState := none } }

/-- Format of the summary line printed for a completed peering. -/
def peeringSummaryFormat : String :=
  "Peering response from %s to %s details: ID %s, Name %s, PeeringState: %s, PeeringSyncLevel: %s, Provisioning State: %s\n\n"

/-- Operands of the summary line: `vnetName, remoteVnetName, *res.ID, *res.Name,
*res.Properties.PeeringState, *res.Properties.PeeringSyncLevel,
*res.Properties.ProvisioningState`; `none` when a dereferenced pointer is nil. -/
def peeringSummaryOperands (vnetName remoteVnetName : String) (res : VirtualNetworkPeering) :
    Option (List String) :=
  match res.ID, res.Name, res.Properties with
  | some id, some name, some props =>
    match props.PeeringState, props.PeeringSyncLevel, props.ProvisioningState with
    | some peeringState, some peeringSyncLevel, some provisioningState =>
      some [vnetName, remoteVnetName, id, name, peeringState, peeringSyncLevel, provisioningState]
    | _, _, _ => none
  | _, _, _ => none

/-- Embedding of `createVnetPeeringCrossSub`; `clients` is a `*Client`. -/
def createVnetPeeringCrossSub (sdk : SDK W) (w : W) (clients : Option Client)
    (rgName vnetName peerName remoteSubscription remoteRgName remoteVnetName : String) : Run W :=
  match clients with
  | none => ⟨[], .panic nilDereference, w⟩
  | some c =>
    let parameters := peeringParameters remoteSubscription remoteRgName remoteVnetName
    let e0 := Event.peeringsBeginCreateOrUpdate c.vnetPeeringsClient rgName vnetName peerName
      parameters (some SyncRemoteAddressSpaceTrue)
    match sdk.peeringsBeginCreateOrUpdate w c.vnetPeeringsClient rgName vnetName peerName
        parameters (some SyncRemoteAddressSpaceTrue) with
    | (.error err, w1) =>
      ⟨[e0, .logFatal (Sprintf "failed to finish the request: %v" [err])], .exit 1, w1⟩
    | (.ok poller, w1) =>
      match sdk.peeringsPollUntilDone w1 poller with
      | (.error err, w2) =>
        ⟨[e0, .peeringsPollUntilDone poller,
          .logFatal (Sprintf "failed to pull the result: %v" [err])], .exit 1, w2⟩
      | (.ok res, w2) =>
        match peeringSummaryOperands vnetName remoteVnetName res with
        | none => ⟨[e0, .peeringsPollUntilDone poller], .panic nilDereference, w2⟩
        | some args =>
          ⟨[e0, .peeringsPollUntilDone poller, .printf peeringSummaryFormat args], .returned, w2⟩

/-- The `armnetwork.Route` literal `rt` of `createRoute`. -/
def routeParameters (subID rgName rtbName rtName : String) : Route :=
  { ID := some (routeID subID rgName rtbName rtName)
    Name := some rtName
    Properties := some
      { NextHopType := some RouteNextHopTypeVirtualAppliance
        AddressPrefix := some defaultAddressPrefix
        NextHopIPAddress := some "10.10.11.2" } }

/-- Embedding of `createRoute`. -/
def createRoute (sdk : SDK W) (w : W) (clients : Option Client)
    (subID rgName rtbName rtName : String) : Run W :=
  let rt := routeParameters subID rgName rtbName rtName
  match clients with
  | none => ⟨[], .panic nilDereference, w⟩
  | some c =>
    let e0 := Event.routesBeginCreateOrUpdate c.routesClient rgName rtbName rtName rt
    match sdk.routesBeginCreateOrUpdate w c.routesClient rgName rtbName rtName rt with
    | (.error err, w1) =>
      ⟨[e0, .printf "Error in polling response to create route %v" [err]], .returned, w1⟩
    | (.ok poller, w1) =>
      match sdk.routesPollUntilDone w1 poller with
      | (.error err, w2) =>
        ⟨[e0, .routesPollUntilDone poller,
          .printf "Error in getting response to create route %v" [err]], .returned, w2⟩
      | (.ok res, w2) =>
        ⟨[e0, .routesPollUntilDone poller, .printlnRoute res], .returned, w2⟩

/-- Embedding of `createRouteTable`. -/
def createRouteTable (sdk : SDK W) (w : W) (clients : Option Client)
    (rgName rtbName : String) : Run W :=
  let params : RouteTable := { Tags := [("site", some "test")] }
  match clients with
  | none => ⟨[], .panic nilDereference, w⟩
  | some c =>
    let e0 := Event.routeTablesBeginCreateOrUpdate c.routeTablesClient rgName rtbName params
    match sdk.routeTablesBeginCreateOrUpdate w c.routeTablesClient rgName rtbName params with
    | (.error err, w1) =>
      ⟨[e0, .printf "Error in getting route table details %v" [err]], .returned, w1⟩
    | (.ok poller, w1) =>
      match sdk.routeTablesPollUntilDone w1 poller with
      | (.error err, w2) =>
        ⟨[e0, .routeTablesPollUntilDone poller, .printf "Error in polling response: %v" [err]],
          .returned, w2⟩
      | (.ok _, w2) => ⟨[e0, .routeTablesPollUntilDone poller], .returned, w2⟩

/-- The two peering calls of `main`, once the configuration is loaded and
`clients` is the slice made by `makeClients`. -/
def peerBothWays (sdk : SDK W) (w : W) (config : Config) (clients : List (Option Client)) :
    Run W :=
  let rgName := config.HubRGName
  let vnetName := config.HubVnetName
  let peerName1 := "peer-137749"
  let peerName2 := "peer-237749"
  let remoteRgName := config.SpokeRGName
  let remoteVnetName := config.SpokeVnetName
  match clients[0]? with
  | none => ⟨[], .panic indexOutOfRange, w⟩
  | some client0 =>
    let r1 := createVnetPeeringCrossSub sdk w client0 rgName vnetName peerName1
      config.RemoteSubscriptionID remoteRgName remoteVnetName
    match r1.outcome with
    | .returned =>
      match clients[1]? with
      | none => ⟨r1.trace, .panic indexOutOfRange, r1.world⟩
      | some client1 =>
        let r2 := createVnetPeeringCrossSub sdk r1.world client1 remoteRgName remoteVnetName
          peerName2 config.SubscriptionID rgName vnetName
        ⟨r1.trace ++ r2.trace, r2.outcome, r2.world⟩
    | stopped => ⟨r1.trace, stopped, r1.world⟩

/-- Embedding of `main`: `v` is the state viper starts from, `w` the state of
the remote control plane. -/
def main (viper : Viper V) (sdk : SDK W) (v : V) (w : W) : Run W :=
  match (LoadConfig viper v ".").1 with
  | (_, some err) => ⟨[.logFatal ("cannot load config:" ++ err)], .exit 1, w⟩
  | (config, none) =>
    let clients := makeClients sdk config
    let r := peerBothWays sdk w config clients.2
    ⟨clients.1 ++ r.trace, r.outcome, r.world⟩

/-! ## Reading a trace -/

/-- A submission of a peering create-or-update request. -/
structure PeeringSubmission where
  client : VirtualNetworkPeeringsClient
  resourceGroupName : String
  virtualNetworkName : String
  virtualNetworkPeeringName : String
  parameters : VirtualNetworkPeering
  deriving DecidableEq, Repr

/-- The peering submission an event is, if it is one. -/
def Event.peeringSubmission? : Event → Option PeeringSubmission
  | .peeringsBeginCreateOrUpdate client rg vnet peer parameters _ =>
    some ⟨client, rg, vnet, peer, parameters⟩
  | _ => none

/-- The peering create-or-update requests of a trace, in order. -/
def peeringSubmissions (t : List Event) : List PeeringSubmission :=
  t.filterMap Event.peeringSubmission?

/-- The remote virtual-network identifier a peering request carries. -/
def remoteVnetID (p : VirtualNetworkPeering) : Option String :=
  match p.Properties with
  | none => none
  | some props =>
    match props.RemoteVirtualNetwork with
    | none => none
    | some sub => sub.ID

/-- Is the event a create-or-update submission (of any resource kind)? -/
def Event.isSubmission : Event → Bool
  | .peeringsBeginCreateOrUpdate .. => true
  | .routesBeginCreateOrUpdate .. => true
  | .routeTablesBeginCreateOrUpdate .. => true
  | _ => false

/-- Is the event a poll-to-completion call? -/
def Event.isPoll : Event → Bool
  | .peeringsPollUntilDone _ => true
  | .routesPollUntilDone _ => true
  | .routeTablesPollUntilDone _ => true
  | _ => false

/-- Is the event a call to the remote control plane? -/
def Event.isRemoteCall (e : Event) : Bool := e.isSubmission || e.isPoll

/-- Is the event the construction of a credential or of a client? -/
def Event.isConstruction : Event → Bool
  | .newClientSecretCredential .. => true
  | .newRouteTablesClient .. => true
  | .newRoutesClient .. => true
  | .newVirtualNetworksClient .. => true
  | .newVirtualNetworkPeeringsClient .. => true
  | _ => false

/-- Is the event the summary line of a completed peering? -/
def Event.isPeeringSummary : Event → Bool
  | .printf format _ => format == peeringSummaryFormat
  | _ => false

/-- A submission of a route create-or-update request. -/
structure RouteSubmission where
  client : RoutesClient
  resourceGroupName : String
  routeTableName : String
  routeName : String
  parameters : Route
  deriving DecidableEq, Repr

/-- The route submission an event is, if it is one. -/
def Event.routeSubmission? : Event → Option RouteSubmission
  | .routesBeginCreateOrUpdate client rg rtb rt parameters => some ⟨client, rg, rtb, rt, parameters⟩
  | _ => none

/-- The route create-or-update requests of a trace, in order. -/
def routeSubmissions (t : List Event) : List RouteSubmission :=
  t.filterMap Event.routeSubmission?

/-- The calls to the remote control plane of a trace, in order. -/
def remoteCalls (t : List Event) : List Event := t.filter Event.isRemoteCall

/-! ## Example libraries

Instances of `Viper` and `SDK` on which the program can be run. -/

/-- State of the example viper: its settings, the configuration files that
exist (path and parsed key/value pairs), and the key/value pairs read so far. -/
structure ViperState where
  configPaths : List String
  configName : String
  configType : String
  files : List (String × List (String × String))
  settings : List (String × String)
  deriving DecidableEq, Repr

/-- The first existing file `dir/name.type` over the search directories. -/
def ViperState.findConfigFile (v : ViperState) : Option (List (String × String)) :=
  v.configPaths.findSome? fun dir =>
    v.files.lookup (dir ++ "/" ++ v.configName ++ "." ++ v.configType)

/-- Value of a key in the loaded settings, or the value the field had. -/
def ViperState.decodeField (v : ViperState) (key current : String) : String :=
  (v.settings.lookup key).getD current

/-- An example viper. `ReadInConfig` fails when no configuration file is found;
`Unmarshal` sets every field that has a key and leaves the others as they
were, without an error, which is how viper decodes into a struct. -/
def exampleViper : Viper ViperState where
  addConfigPath v path := { v with configPaths := v.configPaths ++ [path] }
  setConfigName v name := { v with configName := name }
  setConfigType v typ := { v with configType := typ }
  automaticEnv v := v
  readInConfig v :=
    match v.findConfigFile with
    | none => (some ("Config File Not Found: " ++ v.configName), v)
    | some kvs => (none, { v with settings := kvs })
  unmarshal v c :=
    ((none,
      { TenantID := v.decodeField "TENANT_ID" c.TenantID
        ClientID := v.decodeField "CLIENT_ID" c.ClientID
        ClientSecret := v.decodeField "CLIENT_SECRET" c.ClientSecret
        SubscriptionID := v.decodeField "SUBSCRIPTION_ID" c.SubscriptionID
        RemoteSubscriptionID := v.decodeField "REMOTE_SUBSCRIPTION_ID" c.RemoteSubscriptionID
        HubRGName := v.decodeField "HUB_RG_NAME" c.HubRGName
        HubVnetName := v.decodeField "HUB_VNET_NAME" c.HubVnetName
        SpokeRGName := v.decodeField "SPOKE_RG_NAME" c.SpokeRGName
        SpokeVnetName := v.decodeField "SPOKE_VNET_NAME" c.SpokeVnetName
        SpokeRouteTableName := v.decodeField "SPOKE_ROUTE_TABLE_NAME" c.SpokeRouteTableName }), v)

/-- The viper state of a process started in a directory whose `app.env` holds
the given key/value pairs. -/
def viperWithFile (kvs : List (String × String)) : ViperState :=
  ⟨[], "", "", [("./app.env", kvs)], []⟩

/-- The viper state of a process started in a directory without `app.env`. -/
def viperWithoutFile : ViperState := ⟨[], "", "", [], []⟩

/-- The peering the example control plane reports on completion. -/
def exampleResult (name : String) : VirtualNetworkPeering :=
  { ID := some ("/peerings/" ++ name)
    Name := some name
    Properties := some
      { AllowForwardedTraffic := some true
        AllowGatewayTransit := some false
        AllowVirtualNetworkAccess := some true
        RemoteVirtualNetwork := none
        UseRemoteGateways := some false
        PeeringState := some "Initiated"
        PeeringSyncLevel := some "FullyInSync"
        ProvisioningState := some "Succeeded" } }

/-- An example SDK and control plane, whose state is the list of names of the
resources accepted so far. The credential needs a non-empty secret and a
client a non-empty subscription ID; a submission is rejected when its
resource group is empty; polling fails for a resource named `broken`. -/
def exampleSDK : SDK (List String) where
  NewClientSecretCredential tenantID clientID clientSecret :=
    if clientSecret = "" then .error "secret can't be empty string"
    else .ok ⟨tenantID ++ ":" ++ clientID⟩
  NewRouteTablesClient subscriptionID _ :=
    if subscriptionID = "" then .error "subscriptionID cannot be empty" else .ok ⟨subscriptionID⟩
  NewRoutesClient subscriptionID _ :=
    if subscriptionID = "" then .error "subscriptionID cannot be empty" else .ok ⟨subscriptionID⟩
  NewVirtualNetworksClient subscriptionID _ :=
    if subscriptionID = "" then .error "subscriptionID cannot be empty" else .ok ⟨subscriptionID⟩
  NewVirtualNetworkPeeringsClient subscriptionID _ :=
    if subscriptionID = "" then .error "subscriptionID cannot be empty" else .ok ⟨subscriptionID⟩
  peeringsBeginCreateOrUpdate w _ rg _ peer _ _ :=
    if rg = "" then (.error "parameter resourceGroupName cannot be empty", w)
    else (.ok ⟨peer⟩, w ++ [peer])
  peeringsPollUntilDone w poller :=
    if poller.handle = "broken" then (.error "provisioning failed", w)
    else (.ok (exampleResult poller.handle), w)
  routesBeginCreateOrUpdate w _ rg _ rt _ :=
    if rg = "" then (.error "parameter resourceGroupName cannot be empty", w)
    else (.ok ⟨rt⟩, w ++ [rt])
  routesPollUntilDone w poller :=
    if poller.handle = "broken" then (.error "provisioning failed", w)
    else (.ok ⟨some ("/routes/" ++ poller.handle), some poller.handle, none⟩, w)
  routeTablesBeginCreateOrUpdate w _ rg rtb _ :=
    if rg = "" then (.error "parameter resourceGroupName cannot be empty", w)
    else (.ok ⟨rtb⟩, w ++ [rtb])
  routeTablesPollUntilDone w poller :=
    if poller.handle = "broken" then (.error "provisioning failed", w)
    else (.ok ⟨[("site", some "test")]⟩, w)

/-- A client set of the example SDK. -/
def exampleClient (subscriptionID : String) : Client :=
  ⟨⟨subscriptionID⟩, ⟨subscriptionID⟩, ⟨subscriptionID⟩, ⟨subscriptionID⟩⟩

/-- A complete configuration file. -/
def exampleSettings : List (String × String) :=
  [("TENANT_ID", "tenant"), ("CLIENT_ID", "app"), ("CLIENT_SECRET", "secret"),
   ("SUBSCRIPTION_ID", "sub-hub"), ("REMOTE_SUBSCRIPTION_ID", "sub-spoke"),
   ("HUB_RG_NAME", "hub-rg"), ("HUB_VNET_NAME", "hub-vnet"),
   ("SPOKE_RG_NAME", "spoke-rg"), ("SPOKE_VNET_NAME", "spoke-vnet"),
   ("SPOKE_ROUTE_TABLE_NAME", "spoke-rt")]

/-- The configuration `exampleSettings` decodes to. -/
def exampleConfig : Config :=
  ⟨"tenant", "app", "secret", "sub-hub", "sub-spoke", "hub-rg", "hub-vnet", "spoke-rg",
    "spoke-vnet", "spoke-rt"⟩

/-- A configuration file whose hub resource group is empty, which the example
control plane rejects. -/
def rejectedSettings : List (String × String) :=
  [("TENANT_ID", "tenant"), ("CLIENT_ID", "app"), ("CLIENT_SECRET", "secret"),
   ("SUBSCRIPTION_ID", "sub-hub"), ("REMOTE_SUBSCRIPTION_ID", "sub-spoke"),
   ("HUB_RG_NAME", ""), ("HUB_VNET_NAME", "hub-vnet"),
   ("SPOKE_RG_NAME", "spoke-rg"), ("SPOKE_VNET_NAME", "spoke-vnet"),
   ("SPOKE_ROUTE_TABLE_NAME", "spoke-rt")]

/-- A configuration file without `REMOTE_SUBSCRIPTION_ID`: the example SDK
builds the client set of the hub subscription and refuses the remote one. -/
def noRemoteSubscriptionSettings : List (String × String) :=
  [("TENANT_ID", "tenant"), ("CLIENT_ID", "app"), ("CLIENT_SECRET", "secret"),
   ("SUBSCRIPTION_ID", "sub-hub"),
   ("HUB_RG_NAME", "hub-rg"), ("HUB_VNET_NAME", "hub-vnet"),
   ("SPOKE_RG_NAME", "spoke-rg"), ("SPOKE_VNET_NAME", "spoke-vnet"),
   ("SPOKE_ROUTE_TABLE_NAME", "spoke-rt")]

/-- A configuration file without `CLIENT_SECRET`: the example SDK builds no
credential, so neither client set. -/
def noSecretSettings : List (String × String) :=
  [("TENANT_ID", "tenant"), ("CLIENT_ID", "app"),
   ("SUBSCRIPTION_ID", "sub-hub"), ("REMOTE_SUBSCRIPTION_ID", "sub-spoke"),
   ("HUB_RG_NAME", "hub-rg"), ("HUB_VNET_NAME", "hub-vnet"),
   ("SPOKE_RG_NAME", "spoke-rg"), ("SPOKE_VNET_NAME", "spoke-vnet"),
   ("SPOKE_ROUTE_TABLE_NAME", "spoke-rt")]

/-- A configuration file without `SPOKE_ROUTE_TABLE_NAME`. -/
def noRouteTableSettings : List (String × String) :=
  [("TENANT_ID", "tenant"), ("CLIENT_ID", "app"), ("CLIENT_SECRET", "secret"),
   ("SUBSCRIPTION_ID", "sub-hub"), ("REMOTE_SUBSCRIPTION_ID", "sub-spoke"),
   ("HUB_RG_NAME", "hub-rg"), ("HUB_VNET_NAME", "hub-vnet"),
   ("SPOKE_RG_NAME", "spoke-rg"), ("SPOKE_VNET_NAME", "spoke-vnet")]

/-! ## Lemmas -/

theorem vnetID_eq (s r n : String) :
    vnetID s r n = "/subscriptions/" ++ s ++ "/resourceGroups/" ++ r
      ++ "/providers/Microsoft.Network/virtualNetworks/" ++ n := by
  apply String.ext
  simp only [vnetID, Sprintf, vnetIDFormat, String.data_append]
  simp [doPrintf, finishPrintf]

theorem routeID_eq (s r t n : String) :
    routeID s r t n = "/subscriptions/" ++ s ++ "/resourceGroups/" ++ r
      ++ "/providers/Microsoft.Network/routeTables/" ++ t ++ "/routes/" ++ n := by
  apply String.ext
  simp only [routeID, Sprintf, rtIDFormat, String.data_append]
  simp [doPrintf, finishPrintf]


theorem vnetID_data (s r n : String) :
    (vnetID s r n).data = "/subscriptions/".data ++ (s.data ++ ('/' :: ("resourceGroups/".data
      ++ (r.data ++ ('/' :: ("providers/Microsoft.Network/virtualNetworks/".data ++ n.data)))))) := by
  simp only [vnetID, Sprintf, vnetIDFormat]
  simp [doPrintf, finishPrintf]

/-- Two lists cut at the first occurrence of a separator agree piecewise. -/
theorem append_sep_inj (c : Char) :
    ∀ (xs ys r r' : List Char), c ∉ xs → c ∉ ys → xs ++ c :: r = ys ++ c :: r' →
      xs = ys ∧ r = r'
  | [], [], r, r', _, _, h => by simpa using h
  | [], y :: ys, r, r', _, hy, h => by
    simp only [List.nil_append, List.cons_append, List.cons.injEq] at h
    exact absurd h.1 (by intro e; exact hy (by simp [e]))
  | x :: xs, [], r, r', hx, _, h => by
    simp only [List.nil_append, List.cons_append, List.cons.injEq] at h
    exact absurd h.1 (by intro e; exact hx (by simp [e]))
  | x :: xs, y :: ys, r, r', hx, hy, h => by
    simp only [List.cons_append, List.cons.injEq] at h
    have ih := append_sep_inj c xs ys r r' (fun m => hx (List.mem_cons_of_mem _ m))
      (fun m => hy (List.mem_cons_of_mem _ m)) h.2
    exact ⟨by rw [h.1, ih.1], ih.2⟩

theorem vnetID_inj_of_no_slash (s r n s' r' n' : String)
    (hs : '/' ∉ s.data) (hr : '/' ∉ r.data) (hs' : '/' ∉ s'.data) (hr' : '/' ∉ r'.data)
    (h : vnetID s r n = vnetID s' r' n') : s = s' ∧ r = r' ∧ n = n' := by
  have hd := congrArg String.data h
  rw [vnetID_data, vnetID_data] at hd
  have h1 := append_sep_inj '/' _ _ _ _ hs hs' (List.append_cancel_left hd)
  have h2 := append_sep_inj '/' _ _ _ _ hr hr' (List.append_cancel_left h1.2)
  have h3 := List.append_cancel_left h2.2
  exact ⟨String.ext h1.1, String.ext h2.1, String.ext h3⟩

theorem createVnetPeeringCrossSub_nil (sdk : SDK W) (w : W)
    (rg vnet peer sub rrg rvnet : String) :
    createVnetPeeringCrossSub sdk w none rg vnet peer sub rrg rvnet
      = ⟨[], .panic nilDereference, w⟩ := rfl

theorem peeringSubmissions_createVnetPeeringCrossSub (sdk : SDK W) (w : W) (c : Client)
    (rg vnet peer sub rrg rvnet : String) :
    peeringSubmissions (createVnetPeeringCrossSub sdk w (some c) rg vnet peer sub rrg rvnet).trace
      = [⟨c.vnetPeeringsClient, rg, vnet, peer, peeringParameters sub rrg rvnet⟩] := by
  unfold createVnetPeeringCrossSub
  simp only
  split
  · simp [peeringSubmissions, Event.peeringSubmission?]
  · split
    · simp [peeringSubmissions, Event.peeringSubmission?]
    · split <;> simp [peeringSubmissions, Event.peeringSubmission?]

theorem routeSubmissions_createRoute (sdk : SDK W) (w : W) (c : Client)
    (subID rg rtb rt : String) :
    routeSubmissions (createRoute sdk w (some c) subID rg rtb rt).trace
      = [⟨c.routesClient, rg, rtb, rt, routeParameters subID rg rtb rt⟩] := by
  unfold createRoute
  simp only
  split
  · simp [routeSubmissions, Event.routeSubmission?]
  · split <;> simp [routeSubmissions, Event.routeSubmission?]

theorem remoteVnetID_peeringParameters (sub rg vnet : String) :
    remoteVnetID (peeringParameters sub rg vnet) = some (vnetID sub rg vnet) := rfl

/-- The events of `createClientForSubscription` are local: none is a call to the
remote control plane and none is a peering summary. -/
theorem createClientForSubscription_local (sdk : SDK W) (authConf : AuthConf) (sub : String) :
    ∀ e ∈ (createClientForSubscription sdk authConf sub).1,
      e.isRemoteCall = false ∧ e.isPeeringSummary = false ∧ e.peeringSubmission? = none := by
  unfold createClientForSubscription
  simp only
  split
  · simp [Event.isRemoteCall, Event.isSubmission, Event.isPoll, Event.isPeeringSummary,
      Event.peeringSubmission?, peeringSummaryFormat]
  · split
    · simp [Event.isRemoteCall, Event.isSubmission, Event.isPoll, Event.isPeeringSummary,
        Event.peeringSubmission?, peeringSummaryFormat]
    · split
      · simp [Event.isRemoteCall, Event.isSubmission, Event.isPoll, Event.isPeeringSummary,
          Event.peeringSubmission?, peeringSummaryFormat]
      · split
        · simp [Event.isRemoteCall, Event.isSubmission, Event.isPoll, Event.isPeeringSummary,
            Event.peeringSubmission?, peeringSummaryFormat]
        · split <;>
            simp [Event.isRemoteCall, Event.isSubmission, Event.isPoll, Event.isPeeringSummary,
              Event.peeringSubmission?, peeringSummaryFormat]

theorem makeClients_local (sdk : SDK W) (cfg : Config) :
    ∀ e ∈ (makeClients sdk cfg).1,
      e.isRemoteCall = false ∧ e.isPeeringSummary = false ∧ e.peeringSubmission? = none := by
  intro e he
  simp only [makeClients, List.mem_append] at he
  rcases he with he | he <;> exact createClientForSubscription_local _ _ _ e he

theorem peeringSubmissions_makeClients (sdk : SDK W) (cfg : Config) :
    peeringSubmissions (makeClients sdk cfg).1 = [] := by
  unfold peeringSubmissions
  rw [List.filterMap_eq_nil_iff]
  intro e he
  exact (makeClients_local sdk cfg e he).2.2

theorem peeringSubmissions_append (t u : List Event) :
    peeringSubmissions (t ++ u) = peeringSubmissions t ++ peeringSubmissions u := by
  simp [peeringSubmissions, List.filterMap_append]

theorem makeClients_clients (sdk : SDK W) (cfg : Config) :
    (makeClients sdk cfg).2 =
      [(createClientForSubscription sdk ⟨cfg.TenantID, cfg.ClientID, cfg.ClientSecret⟩
          cfg.SubscriptionID).2,
       (createClientForSubscription sdk ⟨cfg.TenantID, cfg.ClientID, cfg.ClientSecret⟩
          cfg.RemoteSubscriptionID).2] := rfl

theorem main_of_loaded (viper : Viper V) (sdk : SDK W) (v : V) (w : W) (config : Config)
    (h : (LoadConfig viper v ".").1 = (config, none)) :
    main viper sdk v w =
      ⟨(makeClients sdk config).1 ++ (peerBothWays sdk w config (makeClients sdk config).2).trace,
        (peerBothWays sdk w config (makeClients sdk config).2).outcome,
        (peerBothWays sdk w config (makeClients sdk config).2).world⟩ := by
  unfold main
  rw [h]

theorem main_of_load_error (viper : Viper V) (sdk : SDK W) (v : V) (w : W) (config : Config)
    (err : String) (h : (LoadConfig viper v ".").1 = (config, some err)) :
    main viper sdk v w = ⟨[.logFatal ("cannot load config:" ++ err)], .exit 1, w⟩ := by
  unfold main
  rw [h]

/-- The two calls of `main` on a slice of two client pointers. -/
theorem peerBothWays_pair (sdk : SDK W) (w : W) (config : Config) (a b : Option Client) :
    peerBothWays sdk w config [a, b] =
      match (createVnetPeeringCrossSub sdk w a config.HubRGName config.HubVnetName "peer-137749"
          config.RemoteSubscriptionID config.SpokeRGName config.SpokeVnetName).outcome with
      | .returned =>
        ⟨(createVnetPeeringCrossSub sdk w a config.HubRGName config.HubVnetName "peer-137749"
            config.RemoteSubscriptionID config.SpokeRGName config.SpokeVnetName).trace
          ++ (createVnetPeeringCrossSub sdk
            (createVnetPeeringCrossSub sdk w a config.HubRGName config.HubVnetName "peer-137749"
              config.RemoteSubscriptionID config.SpokeRGName config.SpokeVnetName).world
            b config.SpokeRGName config.SpokeVnetName "peer-237749"
            config.SubscriptionID config.HubRGName config.HubVnetName).trace,
          (createVnetPeeringCrossSub sdk
            (createVnetPeeringCrossSub sdk w a config.HubRGName config.HubVnetName "peer-137749"
              config.RemoteSubscriptionID config.SpokeRGName config.SpokeVnetName).world
            b config.SpokeRGName config.SpokeVnetName "peer-237749"
            config.SubscriptionID config.HubRGName config.HubVnetName).outcome,
          (createVnetPeeringCrossSub sdk
            (createVnetPeeringCrossSub sdk w a config.HubRGName config.HubVnetName "peer-137749"
              config.RemoteSubscriptionID config.SpokeRGName config.SpokeVnetName).world
            b config.SpokeRGName config.SpokeVnetName "peer-237749"
            config.SubscriptionID config.HubRGName config.HubVnetName).world⟩
      | stopped =>
        ⟨(createVnetPeeringCrossSub sdk w a config.HubRGName config.HubVnetName "peer-137749"
            config.RemoteSubscriptionID config.SpokeRGName config.SpokeVnetName).trace, stopped,
          (createVnetPeeringCrossSub sdk w a config.HubRGName config.HubVnetName "peer-137749"
            config.RemoteSubscriptionID config.SpokeRGName config.SpokeVnetName).world⟩ := by
  simp only [peerBothWays, List.getElem?_cons_zero, List.getElem?_cons_succ]

theorem createVnetPeeringCrossSub_of_rejected (sdk : SDK W) (w w1 : W) (c : Client)
    (rg vnet peer sub rrg rvnet err : String)
    (h : sdk.peeringsBeginCreateOrUpdate w c.vnetPeeringsClient rg vnet peer
      (peeringParameters sub rrg rvnet) (some SyncRemoteAddressSpaceTrue) = (.error err, w1)) :
    createVnetPeeringCrossSub sdk w (some c) rg vnet peer sub rrg rvnet =
      ⟨[.peeringsBeginCreateOrUpdate c.vnetPeeringsClient rg vnet peer
          (peeringParameters sub rrg rvnet) (some SyncRemoteAddressSpaceTrue),
        .logFatal (Sprintf "failed to finish the request: %v" [err])], .exit 1, w1⟩ := by
  simp only [createVnetPeeringCrossSub, h]

theorem createVnetPeeringCrossSub_of_poll_failed (sdk : SDK W) (w w1 w2 : W) (c : Client)
    (rg vnet peer sub rrg rvnet err : String) (poller : Poller VirtualNetworkPeering)
    (h : sdk.peeringsBeginCreateOrUpdate w c.vnetPeeringsClient rg vnet peer
      (peeringParameters sub rrg rvnet) (some SyncRemoteAddressSpaceTrue) = (.ok poller, w1))
    (hp : sdk.peeringsPollUntilDone w1 poller = (.error err, w2)) :
    createVnetPeeringCrossSub sdk w (some c) rg vnet peer sub rrg rvnet =
      ⟨[.peeringsBeginCreateOrUpdate c.vnetPeeringsClient rg vnet peer
          (peeringParameters sub rrg rvnet) (some SyncRemoteAddressSpaceTrue),
        .peeringsPollUntilDone poller,
        .logFatal (Sprintf "failed to pull the result: %v" [err])], .exit 1, w2⟩ := by
  simp only [createVnetPeeringCrossSub, h, hp]

/-- A peering call returns exactly when the submission is accepted, polling
returns a peering without error, and that peering carries the fields the
summary prints. -/
theorem createVnetPeeringCrossSub_returned_iff (sdk : SDK W) (w : W) (c : Client)
    (rg vnet peer sub rrg rvnet : String) :
    (createVnetPeeringCrossSub sdk w (some c) rg vnet peer sub rrg rvnet).outcome = .returned ↔
      ∃ poller w1 res w2 args,
        sdk.peeringsBeginCreateOrUpdate w c.vnetPeeringsClient rg vnet peer
          (peeringParameters sub rrg rvnet) (some SyncRemoteAddressSpaceTrue) = (.ok poller, w1)
        ∧ sdk.peeringsPollUntilDone w1 poller = (.ok res, w2)
        ∧ peeringSummaryOperands vnet rvnet res = some args := by
  unfold createVnetPeeringCrossSub
  simp only
  split
  · rename_i err w1 h
    simp [h]
  · rename_i poller w1 h
    split
    · rename_i err w2 hp
      simp [h, hp]
    · rename_i res w2 hp
      split
      · rename_i ha
        simp [h, hp, ha]
      · rename_i args ha
        exact ⟨fun _ => ⟨poller, w1, res, w2, args, h, hp, ha⟩, fun _ => rfl⟩

/-! ## Claims -/

/-- C1: the remote virtual-network identifier of every peering request that
`createVnetPeeringCrossSub` submits is `/subscriptions/` ++ subscriptionID ++
`/resourceGroups/` ++ resourceGroup ++ `/providers/Microsoft.Network/virtualNetworks/`
++ vnetName; called on a client set it submits one such request; and the tuple
(`11111111-1111-1111-1111-111111111111`, `hub-rg`, `hub-vnet`) gives the
identifier of the example. -/
theorem createVnetPeeringCrossSub_remote_identifier (sdk : SDK W) (w : W)
    (clients : Option Client) (rgName vnetName peerName sub rg vnet : String) :
    (∀ s ∈ peeringSubmissions
        (createVnetPeeringCrossSub sdk w clients rgName vnetName peerName sub rg vnet).trace,
      remoteVnetID s.parameters = some ("/subscriptions/" ++ sub ++ "/resourceGroups/" ++ rg
        ++ "/providers/Microsoft.Network/virtualNetworks/" ++ vnet))
    ∧ (∀ c, (peeringSubmissions
        (createVnetPeeringCrossSub sdk w (some c) rgName vnetName peerName sub rg vnet).trace).length
          = 1)
    ∧ remoteVnetID (peeringParameters "11111111-1111-1111-1111-111111111111" "hub-rg" "hub-vnet")
      = some "/subscriptions/11111111-1111-1111-1111-111111111111/resourceGroups/hub-rg/providers/Microsoft.Network/virtualNetworks/hub-vnet" := by
  refine ⟨?_, ?_, by decide⟩
  · cases clients with
    | none => simp [createVnetPeeringCrossSub_nil, peeringSubmissions]
    | some c =>
      intro s hs
      rw [peeringSubmissions_createVnetPeeringCrossSub] at hs
      simp only [List.mem_singleton] at hs
      subst hs
      rw [remoteVnetID_peeringParameters, vnetID_eq]
  · intro c
    rw [peeringSubmissions_createVnetPeeringCrossSub]
    rfl

/-- C2, as stated, fails: the tuples (`a/resourceGroups/b`, `c`, `d`) and
(`a`, `b/resourceGroups/c`, `d`) have non-empty fields, differ, and are
formatted to the same identifier. -/
theorem vnetID_not_injective_on_nonempty :
    ¬ ∀ s r n s' r' n' : String, s ≠ "" → r ≠ "" → n ≠ "" → s' ≠ "" → r' ≠ "" → n' ≠ "" →
      (s, r, n) ≠ (s', r', n') → vnetID s r n ≠ vnetID s' r' n' := by
  intro h
  exact h "a/resourceGroups/b" "c" "d" "a" "b/resourceGroups/c" "d"
    (by decide) (by decide) (by decide) (by decide) (by decide) (by decide) (by decide)
    (by decide)

/-- C2, amended: on tuples whose subscription ID and resource group contain no
`/`, the virtual-network identifier builder is injective: two such tuples that
differ in a component are formatted to different identifiers. -/
theorem vnetID_injective_without_slash (s r n s' r' n' : String)
    (hs : '/' ∉ s.data) (hr : '/' ∉ r.data) (hs' : '/' ∉ s'.data) (hr' : '/' ∉ r'.data)
    (hne : (s, r, n) ≠ (s', r', n')) : vnetID s r n ≠ vnetID s' r' n' := by
  intro h
  obtain ⟨h1, h2, h3⟩ := vnetID_inj_of_no_slash s r n s' r' n' hs hr hs' hr' h
  exact hne (by rw [h1, h2, h3])

theorem vnetID_injective_without_slash_witness :
    vnetID "sub-hub" "hub-rg" "hub-vnet" ≠ vnetID "sub-hub" "hub-rg" "spoke-vnet" :=
  vnetID_injective_without_slash "sub-hub" "hub-rg" "hub-vnet" "sub-hub" "hub-rg" "spoke-vnet"
    (by decide) (by decide) (by decide) (by decide) (by decide)

/-- C3, as stated, fails: with an empty subscription ID no error is raised;
the virtual-network and the route identifier are built, with an empty path
segment, and the requests carrying them are submitted. -/
theorem empty_field_builds_identifier :
    peeringSubmissions (createVnetPeeringCrossSub exampleSDK [] (some (exampleClient "sub-hub"))
        "hub-rg" "hub-vnet" "peer-137749" "" "spoke-rg" "spoke-vnet").trace
      = [⟨⟨"sub-hub"⟩, "hub-rg", "hub-vnet", "peer-137749", peeringParameters "" "spoke-rg" "spoke-vnet"⟩]
    ∧ remoteVnetID (peeringParameters "" "spoke-rg" "spoke-vnet")
      = some "/subscriptions//resourceGroups/spoke-rg/providers/Microsoft.Network/virtualNetworks/spoke-vnet"
    ∧ routeSubmissions (createRoute exampleSDK [] (some (exampleClient "sub-hub"))
        "" "hub-rg" "hub-rt" "def-route").trace
      = [⟨⟨"sub-hub"⟩, "hub-rg", "hub-rt", "def-route", routeParameters "" "hub-rg" "hub-rt" "def-route"⟩]
    ∧ (routeParameters "" "hub-rg" "hub-rt" "def-route").ID
      = some "/subscriptions//resourceGroups/hub-rg/providers/Microsoft.Network/routeTables/hub-rt/routes/def-route" := by
  refine ⟨by decide, by decide, by decide, by decide⟩

/-- C3, amended: building an identifier never fails. For every tuple, with
empty fields or not, `createVnetPeeringCrossSub` and `createRoute` called on a
client set submit their request, and the request carries the formatted
identifier, in which an empty field is an empty path segment. -/
theorem identifier_building_never_fails (sdk : SDK W) (w : W) (c : Client)
    (rgName vnetName peerName sub rg vnet subID rtbName rtName : String) :
    peeringSubmissions
        (createVnetPeeringCrossSub sdk w (some c) rgName vnetName peerName sub rg vnet).trace
      = [⟨c.vnetPeeringsClient, rgName, vnetName, peerName, peeringParameters sub rg vnet⟩]
    ∧ remoteVnetID (peeringParameters sub rg vnet)
      = some ("/subscriptions/" ++ sub ++ "/resourceGroups/" ++ rg
        ++ "/providers/Microsoft.Network/virtualNetworks/" ++ vnet)
    ∧ routeSubmissions (createRoute sdk w (some c) subID rgName rtbName rtName).trace
      = [⟨c.routesClient, rgName, rtbName, rtName, routeParameters subID rgName rtbName rtName⟩]
    ∧ (routeParameters subID rgName rtbName rtName).ID
      = some ("/subscriptions/" ++ subID ++ "/resourceGroups/" ++ rgName
        ++ "/providers/Microsoft.Network/routeTables/" ++ rtbName ++ "/routes/" ++ rtName) := by
  refine ⟨peeringSubmissions_createVnetPeeringCrossSub .., ?_, routeSubmissions_createRoute .., ?_⟩
  · rw [remoteVnetID_peeringParameters, vnetID_eq]
  · show some (routeID subID rgName rtbName rtName) = _
    rw [routeID_eq]

/-- C4: `createClientForSubscription` returns nil exactly when the construction
of the credential, or, with the credential built, of one of the four clients
(route tables, routes, virtual networks, virtual-network peerings) fails; when
all five constructions succeed it returns the `Client` whose four fields are
the four clients constructed. It never returns a partly filled `Client`. -/
theorem createClientForSubscription_all_or_nothing (sdk : SDK W) (authConf : AuthConf)
    (subscriptionID : String) :
    ((createClientForSubscription sdk authConf subscriptionID).2 = none ↔
      (∃ err, sdk.NewClientSecretCredential authConf.tenantID authConf.clientID
          authConf.clientSecret = .error err)
      ∨ ∃ cred, sdk.NewClientSecretCredential authConf.tenantID authConf.clientID
          authConf.clientSecret = .ok cred
        ∧ ((∃ err, sdk.NewRouteTablesClient subscriptionID cred = .error err)
          ∨ (∃ err, sdk.NewRoutesClient subscriptionID cred = .error err)
          ∨ (∃ err, sdk.NewVirtualNetworksClient subscriptionID cred = .error err)
          ∨ (∃ err, sdk.NewVirtualNetworkPeeringsClient subscriptionID cred = .error err)))
    ∧ (∀ cred routeTablesClient routesClient vnetClient vnetPeeringsClient,
        sdk.NewClientSecretCredential authConf.tenantID authConf.clientID authConf.clientSecret
          = .ok cred →
        sdk.NewRouteTablesClient subscriptionID cred = .ok routeTablesClient →
        sdk.NewRoutesClient subscriptionID cred = .ok routesClient →
        sdk.NewVirtualNetworksClient subscriptionID cred = .ok vnetClient →
        sdk.NewVirtualNetworkPeeringsClient subscriptionID cred = .ok vnetPeeringsClient →
        (createClientForSubscription sdk authConf subscriptionID).2
          = some ⟨routeTablesClient, routesClient, vnetClient, vnetPeeringsClient⟩) := by
  unfold createClientForSubscription
  constructor
  · cases h0 : sdk.NewClientSecretCredential authConf.tenantID authConf.clientID
      authConf.clientSecret with
    | error e => simp
    | ok cred =>
      cases h1 : sdk.NewRouteTablesClient subscriptionID cred with
      | error e => simp [h1]
      | ok c1 =>
        cases h2 : sdk.NewRoutesClient subscriptionID cred with
        | error e => simp [h1, h2]
        | ok c2 =>
          cases h3 : sdk.NewVirtualNetworksClient subscriptionID cred with
          | error e => simp [h1, h2, h3]
          | ok c3 =>
            cases h4 : sdk.NewVirtualNetworkPeeringsClient subscriptionID cred with
            | error e => simp [h1, h2, h3, h4]
            | ok c4 => simp [h1, h2, h3, h4]
  · intro cred c1 c2 c3 c4 h0 h1 h2 h3 h4
    simp [h0, h1, h2, h3, h4]

/-- C5: when the configuration is loaded, both client sets are constructed and
both peering calls return, `main` submits exactly two peering requests, in
this order: through the client set of `SubscriptionID` to (`HubRGName`,
`HubVnetName`, `peer-137749`) with the remote identifier of
(`RemoteSubscriptionID`, `SpokeRGName`, `SpokeVnetName`); then through the
client set of `RemoteSubscriptionID` to (`SpokeRGName`, `SpokeVnetName`,
`peer-237749`) with the remote identifier of (`SubscriptionID`, `HubRGName`,
`HubVnetName`). The run then returns. -/
theorem main_submits_both_directions (viper : Viper V) (sdk : SDK W) (v : V) (w : W)
    (config : Config) (hub spoke : Client)
    (hload : (LoadConfig viper v ".").1 = (config, none))
    (hhub : (createClientForSubscription sdk
      ⟨config.TenantID, config.ClientID, config.ClientSecret⟩ config.SubscriptionID).2 = some hub)
    (hspoke : (createClientForSubscription sdk
      ⟨config.TenantID, config.ClientID, config.ClientSecret⟩ config.RemoteSubscriptionID).2
        = some spoke)
    (hfirst : (createVnetPeeringCrossSub sdk w (some hub) config.HubRGName config.HubVnetName
      "peer-137749" config.RemoteSubscriptionID config.SpokeRGName config.SpokeVnetName).outcome
        = .returned)
    (hsecond : (createVnetPeeringCrossSub sdk
      (createVnetPeeringCrossSub sdk w (some hub) config.HubRGName config.HubVnetName
        "peer-137749" config.RemoteSubscriptionID config.SpokeRGName config.SpokeVnetName).world
      (some spoke) config.SpokeRGName config.SpokeVnetName "peer-237749" config.SubscriptionID
      config.HubRGName config.HubVnetName).outcome = .returned) :
    peeringSubmissions (main viper sdk v w).trace =
      [⟨hub.vnetPeeringsClient, config.HubRGName, config.HubVnetName, "peer-137749",
          peeringParameters config.RemoteSubscriptionID config.SpokeRGName config.SpokeVnetName⟩,
       ⟨spoke.vnetPeeringsClient, config.SpokeRGName, config.SpokeVnetName, "peer-237749",
          peeringParameters config.SubscriptionID config.HubRGName config.HubVnetName⟩]
    ∧ remoteVnetID
        (peeringParameters config.RemoteSubscriptionID config.SpokeRGName config.SpokeVnetName)
      = some ("/subscriptions/" ++ config.RemoteSubscriptionID ++ "/resourceGroups/"
        ++ config.SpokeRGName ++ "/providers/Microsoft.Network/virtualNetworks/"
        ++ config.SpokeVnetName)
    ∧ remoteVnetID (peeringParameters config.SubscriptionID config.HubRGName config.HubVnetName)
      = some ("/subscriptions/" ++ config.SubscriptionID ++ "/resourceGroups/"
        ++ config.HubRGName ++ "/providers/Microsoft.Network/virtualNetworks/"
        ++ config.HubVnetName)
    ∧ (main viper sdk v w).outcome = .returned := by
  rw [main_of_loaded viper sdk v w config hload, makeClients_clients, hhub, hspoke,
    peerBothWays_pair, hfirst]
  simp only [peeringSubmissions_append, peeringSubmissions_makeClients,
    peeringSubmissions_createVnetPeeringCrossSub, remoteVnetID_peeringParameters, vnetID_eq,
    hsecond, List.nil_append, List.singleton_append, and_self]

theorem main_submits_both_directions_witness :
    peeringSubmissions (main exampleViper exampleSDK (viperWithFile exampleSettings) []).trace =
      [⟨⟨"sub-hub"⟩, "hub-rg", "hub-vnet", "peer-137749",
          peeringParameters "sub-spoke" "spoke-rg" "spoke-vnet"⟩,
       ⟨⟨"sub-spoke"⟩, "spoke-rg", "spoke-vnet", "peer-237749",
          peeringParameters "sub-hub" "hub-rg" "hub-vnet"⟩]
    ∧ (main exampleViper exampleSDK (viperWithFile exampleSettings) []).outcome = .returned :=
  have h := main_submits_both_directions exampleViper exampleSDK (viperWithFile exampleSettings)
    [] exampleConfig (exampleClient "sub-hub") (exampleClient "sub-spoke")
    (by decide) (by decide) (by decide) (by decide) (by decide)
  ⟨h.1, h.2.2.2⟩

/-- C6: when the hub-to-spoke peering fails, by a rejected submission or by an
error from polling it to completion, `main` ends there with `log.Fatalf`
(exit status 1): the last event is the fatal message, no peering summary is
printed, and the hub-to-spoke request is the only peering request submitted,
so the spoke-to-hub request never is. -/
theorem main_stops_at_failed_first_peering (viper : Viper V) (sdk : SDK W) (v : V) (w : W)
    (config : Config) (hub : Client)
    (hload : (LoadConfig viper v ".").1 = (config, none))
    (hhub : (createClientForSubscription sdk
      ⟨config.TenantID, config.ClientID, config.ClientSecret⟩ config.SubscriptionID).2 = some hub)
    (hfail :
      (∃ err w1, sdk.peeringsBeginCreateOrUpdate w hub.vnetPeeringsClient config.HubRGName
          config.HubVnetName "peer-137749"
          (peeringParameters config.RemoteSubscriptionID config.SpokeRGName config.SpokeVnetName)
          (some SyncRemoteAddressSpaceTrue) = (.error err, w1))
      ∨ ∃ poller w1 err w2, sdk.peeringsBeginCreateOrUpdate w hub.vnetPeeringsClient
          config.HubRGName config.HubVnetName "peer-137749"
          (peeringParameters config.RemoteSubscriptionID config.SpokeRGName config.SpokeVnetName)
          (some SyncRemoteAddressSpaceTrue) = (.ok poller, w1)
        ∧ sdk.peeringsPollUntilDone w1 poller = (.error err, w2)) :
    (main viper sdk v w).outcome = .exit 1
    ∧ (∃ message, (main viper sdk v w).trace.getLast? = some (.logFatal message))
    ∧ (∀ e ∈ (main viper sdk v w).trace, e.isPeeringSummary = false)
    ∧ peeringSubmissions (main viper sdk v w).trace =
      [⟨hub.vnetPeeringsClient, config.HubRGName, config.HubVnetName, "peer-137749",
        peeringParameters config.RemoteSubscriptionID config.SpokeRGName config.SpokeVnetName⟩]
    ∧ ∀ s ∈ peeringSubmissions (main viper sdk v w).trace,
        s.virtualNetworkPeeringName ≠ "peer-237749" := by
  have hlocal := makeClients_local sdk config
  have hsub := peeringSubmissions_makeClients sdk config
  rw [main_of_loaded viper sdk v w config hload, makeClients_clients, hhub, peerBothWays_pair]
  rcases hfail with ⟨err, w1, h⟩ | ⟨poller, w1, err, w2, h, hp⟩
  · rw [createVnetPeeringCrossSub_of_rejected sdk w w1 hub _ _ _ _ _ _ err h]
    refine ⟨rfl, ⟨Sprintf "failed to finish the request: %v" [err], by simp⟩, ?_, ?_, ?_⟩
    · intro e he
      simp only [List.mem_append, List.mem_cons, List.mem_singleton, List.not_mem_nil,
        or_false] at he
      rcases he with he | he | he
      · exact (hlocal e he).2.1
      · subst he; rfl
      · subst he; rfl
    · rw [peeringSubmissions_append, hsub]
      simp [peeringSubmissions, Event.peeringSubmission?]
    · rw [peeringSubmissions_append, hsub]
      simp [peeringSubmissions, Event.peeringSubmission?]
  · rw [createVnetPeeringCrossSub_of_poll_failed sdk w w1 w2 hub _ _ _ _ _ _ err poller h hp]
    refine ⟨rfl, ⟨Sprintf "failed to pull the result: %v" [err], by simp⟩, ?_, ?_, ?_⟩
    · intro e he
      simp only [List.mem_append, List.mem_cons, List.mem_singleton, List.not_mem_nil,
        or_false] at he
      rcases he with he | he | he | he
      · exact (hlocal e he).2.1
      · subst he; rfl
      · subst he; rfl
      · subst he; rfl
    · rw [peeringSubmissions_append, hsub]
      simp [peeringSubmissions, Event.peeringSubmission?]
    · rw [peeringSubmissions_append, hsub]
      simp [peeringSubmissions, Event.peeringSubmission?]

theorem main_stops_at_failed_first_peering_witness :
    (main exampleViper exampleSDK (viperWithFile rejectedSettings) []).outcome = .exit 1
    ∧ peeringSubmissions (main exampleViper exampleSDK (viperWithFile rejectedSettings) []).trace
      = [⟨⟨"sub-hub"⟩, "", "hub-vnet", "peer-137749",
          peeringParameters "sub-spoke" "spoke-rg" "spoke-vnet"⟩] :=
  have h := main_stops_at_failed_first_peering exampleViper exampleSDK
    (viperWithFile rejectedSettings) []
    ⟨"tenant", "app", "secret", "sub-hub", "sub-spoke", "", "hub-vnet", "spoke-rg", "spoke-vnet",
      "spoke-rt"⟩
    (exampleClient "sub-hub") (by decide) (by decide)
    (Or.inl ⟨"parameter resourceGroupName cannot be empty", [], rfl⟩)
  ⟨h.1, h.2.2.2.1⟩

/-- C7 does not hold of the code. When only the client set of the remote
subscription cannot be constructed, `main` prints the construction error and
goes on: it submits the hub-to-spoke peering request, polls it, prints its
summary, and only then ends, by a nil-pointer panic on the missing client set.
When the credential cannot be constructed, `main` still attempts the second
client set and ends by the same panic; `log.Fatal` is reached in neither run. -/
theorem main_continues_after_failed_construction :
    (makeClients exampleSDK
        ⟨"tenant", "app", "secret", "sub-hub", "", "hub-rg", "hub-vnet", "spoke-rg", "spoke-vnet",
          "spoke-rt"⟩).2 = [some (exampleClient "sub-hub"), none]
    ∧ (main exampleViper exampleSDK (viperWithFile noRemoteSubscriptionSettings) []).trace =
      [.newClientSecretCredential "tenant" "app" "secret",
       .newRouteTablesClient "sub-hub" ⟨"tenant:app"⟩,
       .newRoutesClient "sub-hub" ⟨"tenant:app"⟩,
       .newVirtualNetworksClient "sub-hub" ⟨"tenant:app"⟩,
       .newVirtualNetworkPeeringsClient "sub-hub" ⟨"tenant:app"⟩,
       .newClientSecretCredential "tenant" "app" "secret",
       .newRouteTablesClient "" ⟨"tenant:app"⟩,
       .printf "Error in creating route tables client %v" ["subscriptionID cannot be empty"],
       .peeringsBeginCreateOrUpdate ⟨"sub-hub"⟩ "hub-rg" "hub-vnet" "peer-137749"
         (peeringParameters "" "spoke-rg" "spoke-vnet") (some "true"),
       .peeringsPollUntilDone ⟨"peer-137749"⟩,
       .printf peeringSummaryFormat
         ["hub-vnet", "spoke-vnet", "/peerings/peer-137749", "peer-137749", "Initiated",
          "FullyInSync", "Succeeded"]]
    ∧ (main exampleViper exampleSDK (viperWithFile noRemoteSubscriptionSettings) []).outcome
      = .panic nilDereference
    ∧ (main exampleViper exampleSDK (viperWithFile noSecretSettings) []).trace =
      [.newClientSecretCredential "tenant" "app" "",
       .printf "Error in creating client %v" ["secret can't be empty string"],
       .newClientSecretCredential "tenant" "app" "",
       .printf "Error in creating client %v" ["secret can't be empty string"]]
    ∧ (main exampleViper exampleSDK (viperWithFile noSecretSettings) []).outcome
      = .panic nilDereference := by
  refine ⟨by decide, by decide, by decide, by decide, by decide⟩

/-- C8: every route request that `createRoute` submits is addressed to
(`rgName`, `rtbName`, `rtName`), has `Name` equal to `rtName` and has `ID` equal to
`/subscriptions/` ++ subID ++ `/resourceGroups/` ++ rgName ++
`/providers/Microsoft.Network/routeTables/` ++ rtbName ++ `/routes/` ++ rtName, built
from the same three names; called on a client set it submits one such request. -/
theorem createRoute_identifier_from_names (sdk : SDK W) (w : W) (clients : Option Client)
    (subID rgName rtbName rtName : String) :
    (∀ s ∈ routeSubmissions (createRoute sdk w clients subID rgName rtbName rtName).trace,
      s.resourceGroupName = rgName ∧ s.routeTableName = rtbName ∧ s.routeName = rtName
      ∧ s.parameters.Name = some rtName
      ∧ s.parameters.ID = some ("/subscriptions/" ++ subID ++ "/resourceGroups/" ++ rgName
        ++ "/providers/Microsoft.Network/routeTables/" ++ rtbName ++ "/routes/" ++ rtName))
    ∧ ∀ c, (routeSubmissions
        (createRoute sdk w (some c) subID rgName rtbName rtName).trace).length = 1 := by
  constructor
  · cases clients with
    | none => simp [createRoute, routeSubmissions]
    | some c =>
      intro s hs
      rw [routeSubmissions_createRoute] at hs
      simp only [List.mem_singleton] at hs
      subst hs
      refine ⟨rfl, rfl, rfl, rfl, ?_⟩
      show some (routeID subID rgName rtbName rtName) = _
      rw [routeID_eq]
  · intro c
    rw [routeSubmissions_createRoute]
    rfl

/-- C9, as stated, fails: called on a nil client set (which `main` passes on
when a construction failed) each of the three operations panics before its
submission, so the submission is issued zero times, not once. -/
theorem nil_client_submits_nothing :
    ((createVnetPeeringCrossSub exampleSDK [] none "hub-rg" "hub-vnet" "peer-137749"
        "sub-spoke" "spoke-rg" "spoke-vnet").trace.filter Event.isSubmission).length = 0
    ∧ ((createRoute exampleSDK [] none "sub-hub" "hub-rg" "hub-rt" "def-route").trace.filter
        Event.isSubmission).length = 0
    ∧ ((createRouteTable exampleSDK [] none "hub-rg" "hub-rt").trace.filter
        Event.isSubmission).length = 0 := by
  refine ⟨by decide, by decide, by decide⟩

/-- C9, amended: no operation retries. In every execution of
`createVnetPeeringCrossSub`, `createRoute` and `createRouteTable` the
create-or-update submission and the poll-to-completion step are issued at most
once each, and the submission exactly once when the client set is not nil.
After a rejected submission the submission is the only remote call of the
operation; after an accepted one the remote calls are the submission and one
poll of the poller it returned, whatever the poll answers. -/
theorem operations_do_not_retry (sdk : SDK W) (w : W) (clients : Option Client)
    (rgName vnetName peerName sub rg vnet subID rtbName rtName : String) :
    (((createVnetPeeringCrossSub sdk w clients rgName vnetName peerName sub rg vnet).trace.filter
        Event.isSubmission).length ≤ 1
      ∧ ((createVnetPeeringCrossSub sdk w clients rgName vnetName peerName sub rg vnet).trace.filter
        Event.isPoll).length ≤ 1
      ∧ ∀ c, clients = some c →
        ((createVnetPeeringCrossSub sdk w clients rgName vnetName peerName sub rg vnet).trace.filter
            Event.isSubmission).length = 1
        ∧ (∀ err w1, sdk.peeringsBeginCreateOrUpdate w c.vnetPeeringsClient rgName vnetName
              peerName (peeringParameters sub rg vnet) (some SyncRemoteAddressSpaceTrue)
              = (.error err, w1) →
            remoteCalls
                (createVnetPeeringCrossSub sdk w clients rgName vnetName peerName sub rg vnet).trace
              = [.peeringsBeginCreateOrUpdate c.vnetPeeringsClient rgName vnetName peerName
                  (peeringParameters sub rg vnet) (some SyncRemoteAddressSpaceTrue)])
        ∧ (∀ poller w1, sdk.peeringsBeginCreateOrUpdate w c.vnetPeeringsClient rgName vnetName
              peerName (peeringParameters sub rg vnet) (some SyncRemoteAddressSpaceTrue)
              = (.ok poller, w1) →
            remoteCalls
                (createVnetPeeringCrossSub sdk w clients rgName vnetName peerName sub rg vnet).trace
              = [.peeringsBeginCreateOrUpdate c.vnetPeeringsClient rgName vnetName peerName
                  (peeringParameters sub rg vnet) (some SyncRemoteAddressSpaceTrue),
                 .peeringsPollUntilDone poller]))
    ∧ (((createRoute sdk w clients subID rgName rtbName rtName).trace.filter
        Event.isSubmission).length ≤ 1
      ∧ ((createRoute sdk w clients subID rgName rtbName rtName).trace.filter
        Event.isPoll).length ≤ 1
      ∧ ∀ c, clients = some c →
        ((createRoute sdk w clients subID rgName rtbName rtName).trace.filter
            Event.isSubmission).length = 1
        ∧ (∀ err w1, sdk.routesBeginCreateOrUpdate w c.routesClient rgName rtbName rtName
              (routeParameters subID rgName rtbName rtName) = (.error err, w1) →
            remoteCalls (createRoute sdk w clients subID rgName rtbName rtName).trace
              = [.routesBeginCreateOrUpdate c.routesClient rgName rtbName rtName
                  (routeParameters subID rgName rtbName rtName)])
        ∧ (∀ poller w1, sdk.routesBeginCreateOrUpdate w c.routesClient rgName rtbName rtName
              (routeParameters subID rgName rtbName rtName) = (.ok poller, w1) →
            remoteCalls (createRoute sdk w clients subID rgName rtbName rtName).trace
              = [.routesBeginCreateOrUpdate c.routesClient rgName rtbName rtName
                  (routeParameters subID rgName rtbName rtName),
                 .routesPollUntilDone poller]))
    ∧ (((createRouteTable sdk w clients rgName rtbName).trace.filter
        Event.isSubmission).length ≤ 1
      ∧ ((createRouteTable sdk w clients rgName rtbName).trace.filter Event.isPoll).length ≤ 1
      ∧ ∀ c, clients = some c →
        ((createRouteTable sdk w clients rgName rtbName).trace.filter
            Event.isSubmission).length = 1
        ∧ (∀ err w1, sdk.routeTablesBeginCreateOrUpdate w c.routeTablesClient rgName rtbName
              ⟨[("site", some "test")]⟩ = (.error err, w1) →
            remoteCalls (createRouteTable sdk w clients rgName rtbName).trace
              = [.routeTablesBeginCreateOrUpdate c.routeTablesClient rgName rtbName
                  ⟨[("site", some "test")]⟩])
        ∧ (∀ poller w1, sdk.routeTablesBeginCreateOrUpdate w c.routeTablesClient rgName rtbName
              ⟨[("site", some "test")]⟩ = (.ok poller, w1) →
            remoteCalls (createRouteTable sdk w clients rgName rtbName).trace
              = [.routeTablesBeginCreateOrUpdate c.routeTablesClient rgName rtbName
                  ⟨[("site", some "test")]⟩,
                 .routeTablesPollUntilDone poller])) := by
  refine ⟨?_, ?_, ?_⟩
  · cases clients with
    | none => simp [createVnetPeeringCrossSub]
    | some c =>
      unfold createVnetPeeringCrossSub remoteCalls
      simp only
      split
      · rename_i h
        simp [h, Event.isSubmission, Event.isPoll, Event.isRemoteCall]
      · rename_i h
        split
        · simp [h, Event.isSubmission, Event.isPoll, Event.isRemoteCall]
        · split <;> simp [h, Event.isSubmission, Event.isPoll, Event.isRemoteCall]
  · cases clients with
    | none => simp [createRoute]
    | some c =>
      unfold createRoute remoteCalls
      simp only
      split
      · rename_i h
        simp [h, Event.isSubmission, Event.isPoll, Event.isRemoteCall]
      · rename_i h
        split <;> simp [h, Event.isSubmission, Event.isPoll, Event.isRemoteCall]
  · cases clients with
    | none => simp [createRouteTable]
    | some c =>
      unfold createRouteTable remoteCalls
      simp only
      split
      · rename_i h
        simp [h, Event.isSubmission, Event.isPoll, Event.isRemoteCall]
      · rename_i h
        split <;> simp [h, Event.isSubmission, Event.isPoll, Event.isRemoteCall]

/-- C10, as stated, fails: from a configuration file without
`SPOKE_ROUTE_TABLE_NAME`, `LoadConfig` returns no error and a configuration
whose `SpokeRouteTableName` is empty; `main` constructs both client sets,
submits both peering requests and returns. -/
theorem absent_field_is_not_an_error :
    (LoadConfig exampleViper (viperWithFile noRouteTableSettings) ".").1 =
      (⟨"tenant", "app", "secret", "sub-hub", "sub-spoke", "hub-rg", "hub-vnet", "spoke-rg",
        "spoke-vnet", ""⟩, none)
    ∧ ((main exampleViper exampleSDK (viperWithFile noRouteTableSettings) []).trace.filter
        Event.isConstruction).length = 10
    ∧ (peeringSubmissions
        (main exampleViper exampleSDK (viperWithFile noRouteTableSettings) []).trace).length = 2
    ∧ (main exampleViper exampleSDK (viperWithFile noRouteTableSettings) []).outcome
      = .returned := by
  refine ⟨by decide, by decide, by decide, by decide⟩

/-- C10, amended: `LoadConfig` returns an error exactly when viper fails to
read the configuration or to decode it, and then `main` logs
`cannot load config:` with the error and exits with status 1, having made no
other event: no client is constructed and no request submitted. The absence
of a field is no error: the example viper, which fails on a missing file,
loads every readable file without error, a field without key as the empty
string. -/
theorem loadConfig_error_iff_viper_error (viper : Viper V) (sdk : SDK W) (v : V) (w : W) :
    ((∃ err, (LoadConfig viper v ".").1.2 = some err) ↔
      (∃ err v5, viper.readInConfig (viper.automaticEnv (viper.setConfigType
          (viper.setConfigName (viper.addConfigPath v ".") "app") "env")) = (some err, v5))
      ∨ ∃ v5 err config v6, viper.readInConfig (viper.automaticEnv (viper.setConfigType
          (viper.setConfigName (viper.addConfigPath v ".") "app") "env")) = (none, v5)
        ∧ viper.unmarshal v5 Config.zero = ((some err, config), v6))
    ∧ (∀ err, (LoadConfig viper v ".").1.2 = some err →
        (main viper sdk v w).trace = [.logFatal ("cannot load config:" ++ err)]
        ∧ (main viper sdk v w).outcome = .exit 1)
    ∧ (∀ kvs, (LoadConfig exampleViper (viperWithFile kvs) ".").1 =
        (⟨(kvs.lookup "TENANT_ID").getD "", (kvs.lookup "CLIENT_ID").getD "",
          (kvs.lookup "CLIENT_SECRET").getD "", (kvs.lookup "SUBSCRIPTION_ID").getD "",
          (kvs.lookup "REMOTE_SUBSCRIPTION_ID").getD "", (kvs.lookup "HUB_RG_NAME").getD "",
          (kvs.lookup "HUB_VNET_NAME").getD "", (kvs.lookup "SPOKE_RG_NAME").getD "",
          (kvs.lookup "SPOKE_VNET_NAME").getD "",
          (kvs.lookup "SPOKE_ROUTE_TABLE_NAME").getD ""⟩, none))
    ∧ (LoadConfig exampleViper viperWithoutFile ".").1.2 = some "Config File Not Found: app" := by
  refine ⟨?_, ?_, ?_, by decide⟩
  · unfold LoadConfig
    simp only
    split
    · rename_i err v5 h
      simp [h]
    · rename_i v5 h
      cases hu : viper.unmarshal v5 Config.zero with
      | mk r v6 =>
        cases r with
        | mk e config =>
          cases e <;> simp [h, hu]
  · intro err h
    have hl : (LoadConfig viper v ".").1 = ((LoadConfig viper v ".").1.1, some err) := by
      rw [← h]
    rw [main_of_load_error viper sdk v w _ err hl]
    exact ⟨rfl, rfl⟩
  · intro kvs
    simp [LoadConfig, exampleViper, viperWithFile, ViperState.findConfigFile,
      ViperState.decodeField, Config.zero]

end AzurePoc
